import Mathlib

/-!
Verification of the fetch/extract/persist pipeline of a small web scraper.

The repository has two variants:
* an enhanced variant (`advanced_scraper.py`): class `WebScraper` with
  `fetch` (bounded retry, linear backoff, inter-request delay),
  `extract_products` (per-field "N/A" fallback, per-container try/except),
  `save_to_csv` / `save_to_json` (empty-input guard, catch-all around the
  write) and the orchestrator `scrape`;
* a minimal variant (`Web Scrapper.py`): free functions `fetch`, `extract`,
  `save`, where only `save` catches exceptions.

The embedding models:
* parsed HTML as a rose tree of element nodes (BeautifulSoup's tree); the
  `find_all` / `find` calls of the source are translated as recursive
  descendant searches by tag and class;
* Python exceptions as an explicit `Except PyExn` result;
* the network as a transport oracle giving the outcome of each HTTP attempt;
* `time.sleep` and the per-attempt log/request as an event trace;
* the file system as an association list from filenames to structured file
  contents (the byte-level rendering of CSV/JSON belongs to the Python
  standard library, so files are modelled at the row / JSON-value level
  that the repository's code actually constructs).
-/

/-! ## Parsed HTML documents -/

/-! One element node of the parsed HTML tree.  `classAttr` is the raw
`class` attribute, `attrs` the other attributes (`href` in particular),
`textContent` the string BeautifulSoup's `.text` returns for this node.
(`Node` and `NodeList` are mutually inductive so that the search functions
below are structurally recursive and evaluate inside the kernel.) -/

mutual
/-- An HTML element node. -/
inductive Node where
  | mk (tag : String) (classAttr : String) (attrs : List (String × String))
       (textContent : String) (children : NodeList)
/-- A list of sibling nodes. -/
inductive NodeList where
  | nil
  | cons (n : Node) (rest : NodeList)
end

def Node.tag : Node → String
  | .mk t _ _ _ _ => t

def Node.classAttr : Node → String
  | .mk _ c _ _ _ => c

def Node.attrs : Node → List (String × String)
  | .mk _ _ a _ _ => a

def Node.text : Node → String
  | .mk _ _ _ x _ => x

def Node.children : Node → NodeList
  | .mk _ _ _ _ ch => ch

/-- Build a `NodeList` from a list literal. -/
def NodeList.ofList : List Node → NodeList
  | [] => .nil
  | n :: ns => .cons n (NodeList.ofList ns)

/-- Python's `str.strip()`: drop whitespace from both ends.  (Implemented
on the character list so that it evaluates inside the kernel.) -/
def pyStrip (s : String) : String :=
  String.mk (((s.data.dropWhile Char.isWhitespace).reverse.dropWhile Char.isWhitespace).reverse)

/-- Split a string at single spaces (the tokens of a `class` attribute). -/
def splitTokens : List Char → List Char → List String
  | [], acc => [String.mk acc.reverse]
  | c :: cs, acc =>
      if c = Char.ofNat 32 then String.mk acc.reverse :: splitTokens cs []
      else splitTokens cs (c :: acc)

/-- Python's `str.replace(a, b)` for single-character patterns. -/
def pyReplace (a b : Char) (s : String) : String :=
  String.mk (s.data.map fun c => if c = a then b else c)

/-- BeautifulSoup class matching for `find(..., class_=cls)`: a single
class token matches if it occurs among the element's classes; a
multi-token pattern matches the whole attribute verbatim. -/
def classMatch (cls attr : String) : Bool :=
  (splitTokens attr.data []).contains cls || attr == cls

/-! `find_all(tag, class_=cls)` over a node / a forest: all matching
elements in document (preorder) order, descending into children. -/

mutual
/-- `find_all` matches of a single node, the node itself included. -/
def findAllN (tag cls : String) : Node → List Node
  | .mk t c a x ch =>
      (if t == tag && classMatch cls c then [Node.mk t c a x ch] else [])
        ++ findAllL tag cls ch
/-- `find_all` matches of a forest of nodes. -/
def findAllL (tag cls : String) : NodeList → List Node
  | .nil => []
  | .cons n ns => findAllN tag cls n ++ findAllL tag cls ns
end

/-- `tag.find(t, class_=cls)`: first matching descendant (not the node
itself), or `None`. -/
def findDesc (tag cls : String) (n : Node) : Option Node :=
  (findAllL tag cls n.children).head?

/-- The product containers of a document: `soup.find_all('div', class_='tUxRFH')`. -/
def containersOf (doc : NodeList) : List Node :=
  findAllL "div" "tUxRFH" doc

/-! ## Python exceptions -/

inductive ReqKind where
  | connErr
  | timeoutErr
  | httpErr
deriving DecidableEq

/-- The exceptions the embedded code can raise: `requests.RequestException`
(with its transport-level kind), `AttributeError` (calling `.text` on
`None` in the minimal `extract`), and an I/O error during a file write. -/
inductive PyExn where
  | requestException (k : ReqKind)
  | attributeError
  | ioError
deriving DecidableEq

/-! ## Records -/

/-- The enhanced variant's product dictionary
`{'Name', 'Price', 'Rating', 'Link', 'Scraped_At'}`. -/
structure Product where
  Name : String
  Price : String
  Rating : String
  Link : String
  Scraped_At : String
deriving DecidableEq

/-- The minimal variant's product dictionary `{'Name', 'Price', 'Rating'}`. -/
structure ProductMin where
  Name : String
  Price : String
  Rating : String
deriving DecidableEq

/-! ## Extractors -/

/-- Log lines / printed messages of the pipeline (content-bearing part only). -/
inductive LogMsg where
  | foundContainers (n : Nat)
  | errorExtracting (idx : Nat)
  | debugExtracted (idx : Nat) (name : String)
  | warnNoProducts
  | errorSavingCsv
  | errorSavingJson
  | savedCsv (n : Nat) (filename : String)
  | savedJson (n : Nat) (filename : String)
  | printNoProducts
  | printErrorSaving
  | printSaved (filename : String)
deriving DecidableEq

/-- The body of the enhanced variant's per-container loop: each of the four
fields falls back to `"N/A"` when its sub-element is missing; the link is
the site base URL plus the anchor's `href` (source lines 94-116 of
`advanced_scraper.py`).  `now` is the `datetime.now()` string. -/
def extractOne (now : String) (c : Node) : Product :=
  let name := match findDesc "div" "KzDlHZ" c with
    | some e => pyStrip e.text
    | none => "N/A"
  let price := match findDesc "div" "Nx9bqj _4b5DiR" c with
    | some e => pyStrip e.text
    | none => "N/A"
  let rating := match findDesc "div" "XQDdHH" c with
    | some e => pyStrip e.text
    | none => "N/A"
  let link := match findDesc "a" "CGtC98" c with
    | some e =>
        match e.attrs.lookup "href" with
        | some h => "https://www.flipkart.com" ++ h
        | none => "N/A"
    | none => "N/A"
  ⟨name, price, rating, link, now⟩

/-- The enhanced `for idx, product in enumerate(product_containers, 1)` loop.
The source wraps the body in `try ... except Exception: log; continue`; in
this embedding the body itself is total, so the possibility of an
unexpected exception at container `idx` is modelled by the oracle
`oops idx = true`: such a container is skipped whole and an error line is
logged, exactly as the `except` branch does. -/
def extractLoop (oops : Nat → Bool) (now : String) : Nat → List Node → List Product × List LogMsg
  | _, [] => ([], [])
  | idx, c :: rest =>
    if oops idx then
      let r := extractLoop oops now (idx + 1) rest
      (r.1, .errorExtracting idx :: r.2)
    else
      let p := extractOne now c
      let r := extractLoop oops now (idx + 1) rest
      (p :: r.1, .debugExtracted idx p.Name :: r.2)

/-- `WebScraper.extract_products` (enhanced variant): find the containers,
log how many there are, then run the per-container loop from index 1. -/
def extract_products (oops : Nat → Bool) (now : String) (doc : NodeList) :
    List Product × List LogMsg :=
  let cs := containersOf doc
  let r := extractLoop oops now 1 cs
  (r.1, .foundContainers cs.length :: r.2)

/-- The minimal variant's per-container extraction: `product.find(...).text`
raises `AttributeError` when the sub-element is missing (`find` returned
`None`), and nothing catches it, so the whole extraction aborts. -/
def extractMinLoop : List Node → Except PyExn (List ProductMin)
  | [] => .ok []
  | c :: rest =>
    match findDesc "div" "KzDlHZ" c with
    | none => .error .attributeError
    | some ne =>
      match findDesc "div" "Nx9bqj _4b5DiR" c with
      | none => .error .attributeError
      | some pe =>
        match findDesc "div" "XQDdHH" c with
        | none => .error .attributeError
        | some re =>
          match extractMinLoop rest with
          | .ok ps => .ok (⟨pyStrip ne.text, pyStrip pe.text, pyStrip re.text⟩ :: ps)
          | .error e => .error e

/-- `extract` of the minimal variant (`Web Scrapper.py` lines 22-43). -/
def extract (doc : NodeList) : Except PyExn (List ProductMin) :=
  extractMinLoop (containersOf doc)

/-! ## Fetcher -/

/-- The outcome of one HTTP attempt, as the transport produces it:
`requests.get` raises a connection error or a timeout, or it yields a
response whose `ok` flag says whether `raise_for_status()` passes
(success status) or raises (failure status). -/
inductive Attempt where
  | connError
  | timeoutError
  | response (ok : Bool) (text : String)

/-- The network oracle: the outcome of the i-th attempt (0-based). -/
def Transport := Nat → Attempt

/-- Observable fetch events: the HTTP request of attempt `k` (1-based, with
its "Fetching URL (Attempt k/R)" log line) and a `time.sleep` of the given
number of seconds. -/
inductive Ev where
  | attempt (k : Nat)
  | sleep (secs : Nat)
deriving DecidableEq

/-- Whether an attempt outcome counts as a transport-level failure
(connection error, timeout, or a status that makes `raise_for_status`
raise). -/
def Attempt.fails : Attempt → Bool
  | .connError => true
  | .timeoutError => true
  | .response ok _ => !ok

/-- `self.session.get(...)` followed by `response.raise_for_status()`:
either the response text or the `requests.RequestException` raised. -/
def attemptOnce (tr : Transport) (a : Nat) : Except PyExn String :=
  match tr a with
  | .connError => .error (.requestException .connErr)
  | .timeoutError => .error (.requestException .timeoutErr)
  | .response ok text =>
      if ok then .ok text else .error (.requestException .httpErr)

/-- The body of `WebScraper.fetch`'s `for attempt in range(self.max_retries)`
loop (source lines 59-74), from loop state `(a, rem)` with `a` the current
0-based attempt index and `rem` the attempts left in the range.  On
success: `time.sleep(self.delay)` then return the text.  On a caught
`RequestException`: if `attempt < self.max_retries - 1`, sleep
`(attempt + 1) * 2` seconds and continue, else log the terminal failure
and return `None`.  An exception that is not a `RequestException` would
propagate (no such exception is ever produced here, which is proved
below, not assumed). -/
def fetchAux (tr : Transport) (delay maxRetries : Nat) :
    Nat → Nat → Except PyExn (Option String) × List Ev
  | _, 0 => (.ok none, [])
  | a, rem + 1 =>
    match attemptOnce tr a with
    | .ok text => (.ok (some text), [.attempt (a + 1), .sleep delay])
    | .error (.requestException _) =>
        if a < maxRetries - 1 then
          let r := fetchAux tr delay maxRetries (a + 1) rem
          (r.1, .attempt (a + 1) :: .sleep ((a + 1) * 2) :: r.2)
        else
          (.ok none, [.attempt (a + 1)])
    | .error e => (.error e, [.attempt (a + 1)])

/-- `WebScraper.fetch` (enhanced variant): run the attempt loop over
`range(max_retries)`; an empty range falls through and the function
returns `None`. -/
def fetch (tr : Transport) (delay maxRetries : Nat) :
    Except PyExn (Option String) × List Ev :=
  fetchAux tr delay maxRetries 0 maxRetries

/-- The minimal variant's `fetch` (`Web Scrapper.py` lines 8-19): one
`requests.get`, then `time.sleep(2)`, then `raise_for_status()`; nothing
is caught, so every transport failure raises to the caller.  (The sleep
happens even before a failure status raises, because it precedes
`raise_for_status` in the source.) -/
def fetchMin (a : Attempt) : Except PyExn String × List Ev :=
  match a with
  | .connError => (.error (.requestException .connErr), [.attempt 1])
  | .timeoutError => (.error (.requestException .timeoutErr), [.attempt 1])
  | .response ok text =>
      if ok then (.ok text, [.attempt 1, .sleep 2])
      else (.error (.requestException .httpErr), [.attempt 1, .sleep 2])

/-- Number of HTTP attempts recorded in a fetch event trace. -/
def countAttempts (evs : List Ev) : Nat :=
  evs.countP fun e => match e with | .attempt _ => true | .sleep _ => false

/-- The trace of `len` consecutive failed attempts starting at 1-based
attempt number `start`, each followed by its linear backoff sleep of
`k * 2` seconds. -/
def backoffTrace (start len : Nat) : List Ev :=
  (List.range' start len).flatMap fun k => [Ev.attempt k, Ev.sleep (k * 2)]

/-! ## Persister -/

/-- A JSON value, at the granularity `json.dump` / `json.load` exchange. -/
inductive JValue where
  | str (s : String)
  | arr (xs : List JValue)
  | obj (fields : List (String × JValue))

/-- Contents of an output file: the CSV rows the `csv.DictWriter` emits, or
the JSON value `json.dump` serializes.  (The byte-level rendering and its
re-parsing are the Python standard library's; the repository constructs
exactly these rows / this value.) -/
inductive FileContent where
  | csvFile (rows : List (List String))
  | jsonFile (v : JValue)

/-- The file system: newest write first; reading a name takes the newest
entry, so writing a present name overwrites it. -/
def FS := List (String × FileContent)

def writeFile (fs : FS) (name : String) (c : FileContent) : FS :=
  (name, c) :: fs

def readFile (fs : FS) (name : String) : Option FileContent :=
  List.lookup name fs

/-- `fieldnames = ['Name', 'Price', 'Rating', 'Link', 'Scraped_At']`. -/
def csvFieldnames : List String :=
  ["Name", "Price", "Rating", "Link", "Scraped_At"]

def productRow (p : Product) : List String :=
  [p.Name, p.Price, p.Rating, p.Link, p.Scraped_At]

/-- The rows `writer.writeheader(); writer.writerows(products)` emit. -/
def csvRows (products : List Product) : List (List String) :=
  csvFieldnames :: products.map productRow

def productToJson (p : Product) : JValue :=
  .obj [("Name", .str p.Name), ("Price", .str p.Price), ("Rating", .str p.Rating),
        ("Link", .str p.Link), ("Scraped_At", .str p.Scraped_At)]

/-- The value `json.dump(products, ...)` serializes. -/
def jsonOfProducts (products : List Product) : JValue :=
  .arr (products.map productToJson)

/-- `WebScraper.save_to_csv` (source lines 127-147).  The empty-input guard
precedes the `try`, so an empty list writes nothing whatever the I/O
oracle says.  `ioErr = true` means opening/writing the file raised; the
`except` catches and logs it.  The third component is the Python return
value of the call: the function has no `return value` statement on any
path, so the caller always receives `None`. -/
def save_to_csv (ioErr : Bool) (products : List Product) (filename : String)
    (fs : FS) : FS × List LogMsg × Option Bool :=
  if products.isEmpty then (fs, [.warnNoProducts], none)
  else if ioErr then (fs, [.errorSavingCsv], none)
  else (writeFile fs filename (.csvFile (csvRows products)),
        [.savedCsv products.length filename], none)

/-- `WebScraper.save_to_json` (source lines 149-166); same shape as CSV. -/
def save_to_json (ioErr : Bool) (products : List Product) (filename : String)
    (fs : FS) : FS × List LogMsg × Option Bool :=
  if products.isEmpty then (fs, [.warnNoProducts], none)
  else if ioErr then (fs, [.errorSavingJson], none)
  else (writeFile fs filename (.jsonFile (jsonOfProducts products)),
        [.savedJson products.length filename], none)

def productMinRow (p : ProductMin) : List String :=
  [p.Name, p.Price, p.Rating]

def csvRowsMin (products : List ProductMin) : List (List String) :=
  ["Name", "Price", "Rating"] :: products.map productMinRow

/-- `save` of the minimal variant (`Web Scrapper.py` lines 46-58): same
empty guard, bare `except`, prints instead of logging, returns `None` on
every path. -/
def save (ioErr : Bool) (products : List ProductMin) (filename : String)
    (fs : FS) : FS × List LogMsg × Option Bool :=
  if products.isEmpty then (fs, [.printNoProducts], none)
  else if ioErr then (fs, [.printErrorSaving], none)
  else (writeFile fs filename (.csvFile (csvRowsMin products)),
        [.printSaved filename], none)

/-! ### Re-parsing the persisted files (for the round-trip property) -/

def rowToProduct : List String → Option Product
  | [n, p, r, l, s] => some ⟨n, p, r, l, s⟩
  | _ => none

def parseRows : List (List String) → Option (List Product)
  | [] => some []
  | r :: rs =>
      match rowToProduct r, parseRows rs with
      | some p, some ps => some (p :: ps)
      | _, _ => none

/-- Reading a CSV file back as `csv.DictReader` would: check the header,
then rebuild one record per row. -/
def parseCsvProducts : List (List String) → Option (List Product)
  | header :: rows => if header = csvFieldnames then parseRows rows else none
  | [] => none

def asStr : JValue → Option String
  | .str s => some s
  | _ => none

def jsonToProduct : JValue → Option Product
  | .obj fields => do
      let n ← (fields.lookup "Name").bind asStr
      let p ← (fields.lookup "Price").bind asStr
      let r ← (fields.lookup "Rating").bind asStr
      let l ← (fields.lookup "Link").bind asStr
      let s ← (fields.lookup "Scraped_At").bind asStr
      some ⟨n, p, r, l, s⟩
  | _ => none

def parseJsonList : List JValue → Option (List Product)
  | [] => some []
  | v :: vs =>
      match jsonToProduct v, parseJsonList vs with
      | some p, some ps => some (p :: ps)
      | _, _ => none

/-- Reading the JSON file back as `json.load` plus field lookups would. -/
def parseJsonProducts : JValue → Option (List Product)
  | .arr xs => parseJsonList xs
  | _ => none

/-! ## Timestamps and the auto-generated filename -/

/-- A `datetime.now()` value.  `micro` is the microsecond component, which
`strftime('%Y%m%d_%H%M%S')` drops (the format has no `%f`). -/
structure DateTime where
  year : Nat
  month : Nat
  day : Nat
  hour : Nat
  minute : Nat
  second : Nat
  micro : Nat
deriving DecidableEq

/-- The second-granularity part of a timestamp, i.e. exactly what
`strftime('%Y%m%d_%H%M%S')` can see. -/
def DateTime.secondsTuple (t : DateTime) : Nat × Nat × Nat × Nat × Nat × Nat :=
  (t.year, t.month, t.day, t.hour, t.minute, t.second)

/-- Field bounds under which the fixed-width rendering below is exact
(true of every real datetime: month ≤ 12, day ≤ 31, ...). -/
def DateTime.valid (t : DateTime) : Prop :=
  t.year < 10000 ∧ t.month < 100 ∧ t.day < 100 ∧
    t.hour < 100 ∧ t.minute < 100 ∧ t.second < 100

instance (t : DateTime) : Decidable t.valid := by
  unfold DateTime.valid; infer_instance

/-- Zero-padded fixed-width decimal rendering of `n`, as `strftime`'s
numeric directives produce (`%Y` has width 4, the rest width 2). -/
def padDigits (w n : Nat) : List Char :=
  List.replicate (w - (Nat.digits 10 n).length) (Char.ofNat 48)
    ++ ((Nat.digits 10 n).reverse.map Nat.digitChar)

/-- Decimal reading-back of a digit string (used only to prove `padDigits`
injective). -/
def unpadDigits (l : List Char) : Nat :=
  Nat.ofDigits 10 ((l.map fun c => c.toNat - 48).reverse)

/-- `datetime.now().strftime('%Y%m%d_%H%M%S')`. -/
def fmtTimestamp (t : DateTime) : String :=
  String.mk (padDigits 4 t.year ++ (padDigits 2 t.month ++ (padDigits 2 t.day ++
    (Char.ofNat 95 :: (padDigits 2 t.hour ++ (padDigits 2 t.minute ++ padDigits 2 t.second))))))

/-- `datetime.now().strftime('%Y-%m-%d %H:%M:%S')`, the `Scraped_At` value. -/
def scrapedAtString (t : DateTime) : String :=
  String.mk (padDigits 4 t.year ++ (Char.ofNat 45 :: (padDigits 2 t.month ++
    (Char.ofNat 45 :: (padDigits 2 t.day ++ (Char.ofNat 32 :: (padDigits 2 t.hour ++
    (Char.ofNat 58 :: (padDigits 2 t.minute ++ (Char.ofNat 58 :: padDigits 2 t.second))))))))))

/-- The auto-generated output filename stem of `WebScraper.scrape`
(source lines 193-195):
`f"flipkart_{search_query.replace(' ', '_')}_{timestamp}"`. -/
def autoFilename (query : String) (t : DateTime) : String :=
  "flipkart_" ++ pyReplace (Char.ofNat 32) (Char.ofNat 95) query ++ "_" ++ fmtTimestamp t

/-! ## Orchestrator -/

/-- `WebScraper.scrape` (source lines 168-203).  Returns the resulting file
system, or the exception that would propagate out of the pipeline (none
ever does, which is proved below, not assumed).  `parseHtml` models
`BeautifulSoup(html, 'html.parser')` — the parse of the fetched text into
a tree; `now` the wall clock at the run.  The target URL built from
`base_url` and the query feeds the transport oracle and carries no further
information here. -/
def scrape (tr : Transport) (delay maxRetries : Nat) (oops : Nat → Bool)
    (ioErr : Bool) (parseHtml : String → NodeList) (now : DateTime)
    (query output_format : String) (output_filename : Option String)
    (fs : FS) : Except PyExn FS :=
  match (fetch tr delay maxRetries).1 with
  | .error e => .error e
  | .ok none => .ok fs
  | .ok (some html) =>
    let products := (extract_products oops (scrapedAtString now) (parseHtml html)).1
    if products.isEmpty then .ok fs
    else
      let fname := match output_filename with
        | some f => f
        | none => autoFilename query now
      if output_format.toLower == "json" then
        .ok (save_to_json ioErr products (fname ++ ".json") fs).1
      else
        .ok (save_to_csv ioErr products (fname ++ ".csv") fs).1

/-! ## Concrete sample data (for counterexamples and witnesses) -/

def nameEl : Node := Node.mk "div" "KzDlHZ" [] " Cool Laptop " .nil

def priceEl : Node := Node.mk "div" "Nx9bqj _4b5DiR" [] "$999" .nil

def ratingEl : Node := Node.mk "div" "XQDdHH" [] "4.4" .nil

def linkEl : Node := Node.mk "a" "CGtC98" [("href", "/item")] " Cool Laptop " .nil

/-- A product card with all four sub-elements present. -/
def fullContainer : Node :=
  Node.mk "div" "tUxRFH" [] "" (NodeList.ofList [nameEl, priceEl, ratingEl, linkEl])

/-- A product card whose name element is missing. -/
def noNameContainer : Node :=
  Node.mk "div" "tUxRFH" [] "" (NodeList.ofList [priceEl, ratingEl, linkEl])

/-- A product card whose price element is missing. -/
def noPriceContainer : Node :=
  Node.mk "div" "tUxRFH" [] "" (NodeList.ofList [nameEl, ratingEl])

/-- A product card whose rating element is missing. -/
def noRatingContainer : Node :=
  Node.mk "div" "tUxRFH" [] "" (NodeList.ofList [nameEl, priceEl])

/-- An element matching no selector of the scraper. -/
def plainDiv : Node := Node.mk "div" "footer" [] "" .nil

def sampleProduct : Product :=
  ⟨"X1", "$5", "4.0", "https://www.flipkart.com/x1", "2026-10-12 03:04:05"⟩

def sampleProductMin : ProductMin := ⟨"X1", "$5", "4.0"⟩

/-- A run instant. -/
def dtA : DateTime := ⟨2026, 10, 12, 3, 4, 5, 0⟩

/-- A different run instant within the same second as `dtA`. -/
def dtB : DateTime := ⟨2026, 10, 12, 3, 4, 5, 500000⟩

/-- A run instant one second after `dtA`. -/
def dtC : DateTime := ⟨2026, 10, 12, 3, 4, 6, 0⟩

/-! ## Helper lemmas about the fetcher -/

lemma attemptOnce_of_fails {tr : Transport} {a : Nat} (h : (tr a).fails = true) :
    ∃ k, attemptOnce tr a = .error (.requestException k) := by
  unfold attemptOnce
  cases htr : tr a with
  | connError => exact ⟨.connErr, rfl⟩
  | timeoutError => exact ⟨.timeoutErr, rfl⟩
  | response ok text =>
      rw [htr] at h
      simp only [Attempt.fails, Bool.not_eq_true'] at h
      subst h
      exact ⟨.httpErr, rfl⟩

lemma attemptOnce_error_kind {tr : Transport} {a : Nat} {e : PyExn}
    (h : attemptOnce tr a = .error e) : ∃ k, e = .requestException k := by
  unfold attemptOnce at h
  cases htr : tr a with
  | connError => rw [htr] at h; exact ⟨.connErr, (Except.error.inj h).symm⟩
  | timeoutError => rw [htr] at h; exact ⟨.timeoutErr, (Except.error.inj h).symm⟩
  | response ok text =>
      rw [htr] at h
      cases ok with
      | true => simp at h
      | false => exact ⟨.httpErr, (Except.error.inj h).symm⟩

/-- One unfolding step of the attempt loop. -/
lemma fetchAux_step (tr : Transport) (delay R a rem : Nat) :
    fetchAux tr delay R a (rem + 1) =
      match attemptOnce tr a with
      | .ok text => (.ok (some text), [.attempt (a + 1), .sleep delay])
      | .error (.requestException _) =>
          if a < R - 1 then
            ((fetchAux tr delay R (a + 1) rem).1,
              .attempt (a + 1) :: .sleep ((a + 1) * 2) :: (fetchAux tr delay R (a + 1) rem).2)
          else
            (.ok none, [.attempt (a + 1)])
      | .error e => (.error e, [.attempt (a + 1)]) := rfl

lemma backoffTrace_succ (s len : Nat) :
    backoffTrace s (len + 1) =
      Ev.attempt s :: Ev.sleep (s * 2) :: backoffTrace (s + 1) len := by
  simp [backoffTrace, List.range'_succ s len 1]

lemma backoffTrace_zero (s : Nat) : backoffTrace s 0 = [] := rfl

/-- When every attempt fails, the loop from state `(a, rem + 1)` with
`a + (rem + 1) = maxRetries` runs through all remaining attempts, sleeping
the linear backoff between consecutive ones, and returns `None`. -/
lemma fetchAux_all_fail (tr : Transport) (delay R : Nat)
    (hfail : ∀ a, (tr a).fails = true) :
    ∀ rem a, a + (rem + 1) = R →
      fetchAux tr delay R a (rem + 1) =
        (.ok none, backoffTrace (a + 1) rem ++ [Ev.attempt (a + rem + 1)]) := by
  intro rem
  induction rem with
  | zero =>
      intro a ha
      obtain ⟨k, hk⟩ := attemptOnce_of_fails (hfail a)
      have hlt : ¬ a < R - 1 := by omega
      rw [fetchAux_step, hk]
      simp [hlt, backoffTrace_zero]
  | succ m ih =>
      intro a ha
      obtain ⟨k, hk⟩ := attemptOnce_of_fails (hfail a)
      have hlt : a < R - 1 := by omega
      have hrec := ih (a + 1) (by omega)
      rw [fetchAux_step, hk]
      simp only [if_pos hlt, hrec, backoffTrace_succ, List.cons_append]
      have h2 : a + 1 + m + 1 = a + (m + 1) + 1 := by omega
      rw [h2]

/-- When the first success is at 0-based attempt `s`, the loop from state
`(a, rem + 1)` (with `a ≤ s`) fails and backs off through attempts
`a+1 .. s`, then succeeds at attempt `s + 1` and sleeps the configured
delay once before returning the text. -/
lemma fetchAux_first_success (tr : Transport) (delay R s : Nat) (html : String)
    (hsu : tr s = .response true html)
    (hf : ∀ a, a < s → (tr a).fails = true) :
    ∀ rem a, a + (rem + 1) = R → a ≤ s → s < R →
      fetchAux tr delay R a (rem + 1) =
        (.ok (some html),
          backoffTrace (a + 1) (s - a) ++ [Ev.attempt (s + 1), Ev.sleep delay]) := by
  intro rem
  induction rem with
  | zero =>
      intro a ha has hsR
      have haeq : a = s := by omega
      subst haeq
      have hok : attemptOnce tr a = .ok html := by
        unfold attemptOnce; rw [hsu]; rfl
      rw [fetchAux_step, hok]
      simp [Nat.sub_self, backoffTrace_zero]
  | succ m ih =>
      intro a ha has hsR
      rcases Nat.lt_or_ge a s with hlt | hge
      · obtain ⟨k, hk⟩ := attemptOnce_of_fails (hf a hlt)
        have hbr : a < R - 1 := by omega
        have hrec := ih (a + 1) (by omega) (by omega) hsR
        rw [fetchAux_step, hk]
        simp only [if_pos hbr, hrec]
        have hsa : s - a = (s - (a + 1)) + 1 := by omega
        rw [hsa, backoffTrace_succ]
        simp
      · have haeq : a = s := by omega
        subst haeq
        have hok : attemptOnce tr a = .ok html := by
          unfold attemptOnce; rw [hsu]; rfl
        rw [fetchAux_step, hok]
        simp [Nat.sub_self, backoffTrace_zero]

lemma countAttempts_append (l1 l2 : List Ev) :
    countAttempts (l1 ++ l2) = countAttempts l1 + countAttempts l2 :=
  List.countP_append ..

lemma countAttempts_backoffTrace (s len : Nat) :
    countAttempts (backoffTrace s len) = len := by
  induction len generalizing s with
  | zero => rfl
  | succ m ih =>
      have h := ih (s + 1)
      rw [backoffTrace_succ]
      simp only [countAttempts, List.countP_cons] at h ⊢
      simp [h]

/-- `fetch` never lets an exception escape: the attempt loop only ever sees
`RequestException`s, and those it catches. -/
lemma fetchAux_isOk (tr : Transport) (delay R : Nat) :
    ∀ rem a, ∃ r evs, fetchAux tr delay R a rem = (.ok r, evs) := by
  intro rem
  induction rem with
  | zero => intro a; exact ⟨none, [], rfl⟩
  | succ m ih =>
      intro a
      cases hat : attemptOnce tr a with
      | ok text =>
          exact ⟨some text, [.attempt (a + 1), .sleep delay], by rw [fetchAux_step, hat]⟩
      | error e =>
          obtain ⟨k, hk⟩ := attemptOnce_error_kind hat
          subst hk
          by_cases hbr : a < R - 1
          · obtain ⟨r, evs, hrec⟩ := ih (a + 1)
            exact ⟨r, .attempt (a + 1) :: .sleep ((a + 1) * 2) :: evs, by
              rw [fetchAux_step, hat]; simp [if_pos hbr, hrec]⟩
          · exact ⟨none, [.attempt (a + 1)], by rw [fetchAux_step, hat]; simp [if_neg hbr]⟩

lemma fetch_isOk (tr : Transport) (delay R : Nat) :
    ∃ r evs, fetch tr delay R = (.ok r, evs) :=
  fetchAux_isOk tr delay R R 0

/-! ## Helper lemmas about the extractor -/

/-- Closed form of the enhanced per-container loop: the records are the
non-failing containers in order, each mapped through `extractOne`, and the
log has one line per container (error for skipped ones, debug for kept
ones). -/
lemma extractLoop_eq (oops : Nat → Bool) (now : String) :
    ∀ (cs : List Node) (k : Nat),
      extractLoop oops now k cs =
        (((cs.enumFrom k).filter fun p => !oops p.1).map fun p => extractOne now p.2,
         (cs.enumFrom k).map fun p =>
            if oops p.1 then LogMsg.errorExtracting p.1
            else LogMsg.debugExtracted p.1 (extractOne now p.2).Name) := by
  intro cs
  induction cs with
  | nil => intro k; rfl
  | cons c rest ih =>
      intro k
      by_cases h : oops k
      · simp [extractLoop, h, List.enumFrom, ih (k + 1)]
      · simp [extractLoop, h, List.enumFrom, ih (k + 1)]

/-! ## Helper lemmas about fixed-width decimal rendering -/

lemma ofDigits_replicate_zero (b k : Nat) :
    Nat.ofDigits b (List.replicate k 0) = 0 := by
  induction k with
  | zero => rfl
  | succ m ih => simp [List.replicate_succ, Nat.ofDigits_cons, ih]

lemma digits10_length_le (w n : Nat) (h : n < 10 ^ w) :
    (Nat.digits 10 n).length ≤ w := by
  by_contra hgt
  push_neg at hgt
  rcases Nat.eq_zero_or_pos n with h0 | h0
  · subst h0; simp at hgt
  · have h1 : 10 ^ (Nat.digits 10 n).length ≤ 10 * n :=
      Nat.base_pow_length_digits_le 10 n (by norm_num) (by omega)
    have h2 : 10 ^ (w + 1) ≤ 10 ^ (Nat.digits 10 n).length :=
      Nat.pow_le_pow_right (by norm_num) hgt
    have h3 : 10 * 10 ^ w ≤ 10 * n := by
      calc 10 * 10 ^ w = 10 ^ (w + 1) := by ring
        _ ≤ 10 ^ (Nat.digits 10 n).length := h2
        _ ≤ 10 * n := h1
    have := Nat.le_of_mul_le_mul_left h3 (by norm_num)
    omega

lemma padDigits_length (w n : Nat) (h : n < 10 ^ w) :
    (padDigits w n).length = w := by
  have hle := digits10_length_le w n h
  simp [padDigits]
  omega

lemma digitChar_val : ∀ d, d < 10 → (Nat.digitChar d).toNat - 48 = d := by
  decide

lemma unpadDigits_padDigits (w n : Nat) :
    unpadDigits (padDigits w n) = n := by
  unfold unpadDigits padDigits
  rw [List.map_append, List.map_map, List.map_replicate]
  have h0 : (Char.ofNat 48).toNat - 48 = 0 := rfl
  rw [h0]
  have hd : (Nat.digits 10 n).reverse.map
      ((fun c => c.toNat - 48) ∘ Nat.digitChar) = (Nat.digits 10 n).reverse := by
    have : ∀ d ∈ (Nat.digits 10 n).reverse,
        ((fun c => c.toNat - 48) ∘ Nat.digitChar) d = id d := by
      intro d hd
      have hlt : d < 10 := Nat.digits_lt_base (by norm_num) (List.mem_reverse.mp hd)
      simpa using digitChar_val d hlt
    rw [List.map_congr_left this, List.map_id]
  rw [hd, List.reverse_append, List.reverse_reverse, List.reverse_replicate,
    Nat.ofDigits_append, Nat.ofDigits_digits, ofDigits_replicate_zero]
  simp

lemma padDigits_inj {w m n : Nat} (h : padDigits w m = padDigits w n) : m = n := by
  have := congrArg unpadDigits h
  rwa [unpadDigits_padDigits w m, unpadDigits_padDigits w n] at this

/-- On bounded (real) datetimes the `'%Y%m%d_%H%M%S'` rendering determines
the six second-granularity fields: equal strings force equal fields. -/
lemma fmtTimestamp_inj {t1 t2 : DateTime} (h1 : t1.valid) (h2 : t2.valid)
    (h : (fmtTimestamp t1).data = (fmtTimestamp t2).data) :
    t1.secondsTuple = t2.secondsTuple := by
  obtain ⟨hy1, hmo1, hd1, hh1, hmi1, hs1⟩ := h1
  obtain ⟨hy2, hmo2, hd2, hh2, hmi2, hs2⟩ := h2
  simp only [fmtTimestamp] at h
  obtain ⟨hyear, h⟩ := List.append_inj h
    (by rw [padDigits_length 4 _ hy1, padDigits_length 4 _ hy2])
  obtain ⟨hmonth, h⟩ := List.append_inj h
    (by rw [padDigits_length 2 _ hmo1, padDigits_length 2 _ hmo2])
  obtain ⟨hday, h⟩ := List.append_inj h
    (by rw [padDigits_length 2 _ hd1, padDigits_length 2 _ hd2])
  have h := List.tail_eq_of_cons_eq h
  obtain ⟨hhour, h⟩ := List.append_inj h
    (by rw [padDigits_length 2 _ hh1, padDigits_length 2 _ hh2])
  obtain ⟨hminute, hsecond⟩ := List.append_inj h
    (by rw [padDigits_length 2 _ hmi1, padDigits_length 2 _ hmi2])
  simp only [DateTime.secondsTuple, Prod.mk.injEq]
  exact ⟨padDigits_inj hyear, padDigits_inj hmonth, padDigits_inj hday,
    padDigits_inj hhour, padDigits_inj hminute, padDigits_inj hsecond⟩

/-! ## Claim theorems -/

/-- C1 (counterexample to the claim as stated): the claim asserts, for both
variants, that a missing sub-element yields `"N/A"` and never an error, and
that the link field is the trimmed text of its sub-element.  Both parts
fail: the minimal variant's `extract` raises `AttributeError` on a
container whose name element is missing (it calls `.text` on the `None`
returned by `find`), and the enhanced variant's link field is the base URL
plus the anchor's `href`, not the anchor's trimmed text. -/
theorem c1_counterexample :
    extract (NodeList.ofList [noNameContainer]) = .error PyExn.attributeError ∧
    findDesc "a" "CGtC98" fullContainer = some linkEl ∧
    pyStrip linkEl.text = "Cool Laptop" ∧
    (extractOne "t" fullContainer).Link = "https://www.flipkart.com/item" ∧
    (extractOne "t" fullContainer).Link ≠ pyStrip linkEl.text := by
  have h4 : (extractOne "t" fullContainer).Link = "https://www.flipkart.com/item" := by rfl
  refine ⟨by rfl, by rfl, by rfl, h4, ?_⟩
  rw [h4, show pyStrip linkEl.text = "Cool Laptop" from by rfl]
  decide

/-- C1 (amended): in the enhanced variant, for every container, the name,
price and rating fields are the trimmed text of their sub-element when it
is present and `"N/A"` when it is absent; the link field is the base URL
plus the anchor's `href` when an anchor with an `href` is present and
`"N/A"` otherwise; and (with no unexpected exception) every container
yields exactly one fully constructed record, so a missing sub-element
never causes an error and never yields a partial or omitted record. -/
theorem c1_field_policy (now : String) (c : Node) :
    ((findDesc "div" "KzDlHZ" c).elim ((extractOne now c).Name = "N/A")
      fun e => (extractOne now c).Name = pyStrip e.text) ∧
    ((findDesc "div" "Nx9bqj _4b5DiR" c).elim ((extractOne now c).Price = "N/A")
      fun e => (extractOne now c).Price = pyStrip e.text) ∧
    ((findDesc "div" "XQDdHH" c).elim ((extractOne now c).Rating = "N/A")
      fun e => (extractOne now c).Rating = pyStrip e.text) ∧
    ((findDesc "a" "CGtC98" c).elim ((extractOne now c).Link = "N/A")
      fun e => (e.attrs.lookup "href").elim ((extractOne now c).Link = "N/A")
        fun h => (extractOne now c).Link = "https://www.flipkart.com" ++ h) ∧
    ((extractOne now c).Scraped_At = now) ∧
    (∀ doc, (extract_products (fun _ => false) now doc).1 =
      (containersOf doc).map (extractOne now)) := by
  refine ⟨?_, ?_, ?_, ?_, ?_, ?_⟩
  · cases h : findDesc "div" "KzDlHZ" c <;> simp [extractOne, h]
  · cases h : findDesc "div" "Nx9bqj _4b5DiR" c <;> simp [extractOne, h]
  · cases h : findDesc "div" "XQDdHH" c <;> simp [extractOne, h]
  · cases h : findDesc "a" "CGtC98" c with
    | none => simp [extractOne, h]
    | some e =>
        cases hh : e.attrs.lookup "href" <;> simp [extractOne, h, hh]
  · rfl
  · intro doc
    rw [extract_products, extractLoop_eq]
    simp only [Bool.not_false, List.filter_true]
    have : (fun p : Nat × Node => extractOne now p.2) =
        (extractOne now) ∘ Prod.snd := rfl
    rw [this, ← List.map_map, List.enumFrom_map_snd]

/-- C2 (counterexample to the claim as stated): a document with two
containers of which the second raises during field extraction (its price
element is missing, so the minimal variant's `.text` raises
`AttributeError`).  The claim demands `2 − 1 = 1` surviving records; the
minimal variant's `extract` instead aborts whole, propagating the
exception and returning no records at all. -/
theorem c2_counterexample :
    (containersOf (NodeList.ofList [fullContainer, noPriceContainer])).length = 2 ∧
    extract (NodeList.ofList [fullContainer, noPriceContainer]) = .error PyExn.attributeError := by
  exact ⟨rfl, rfl⟩

/-- C2 (amended): in the enhanced variant, each container whose field
extraction raises (oracle `oops`) is skipped whole and logged, extraction
continues, the survivors keep their document order, and the number of
records plus the number of failing containers equals the number of
containers (so the result length is C − F).  In the minimal variant the
first failing container aborts the entire extraction with the exception
(see the counterexample). -/
theorem c2_skip_failing_containers (oops : Nat → Bool) (now : String) (doc : NodeList) :
    (extract_products oops now doc).1 =
      ((((containersOf doc).enumFrom 1).filter fun p => !oops p.1).map
        fun p => extractOne now p.2) ∧
    (extract_products oops now doc).1.length +
        (((containersOf doc).enumFrom 1).countP fun p => oops p.1) =
      (containersOf doc).length ∧
    (extract_products oops now doc).2 =
      .foundContainers (containersOf doc).length ::
        (((containersOf doc).enumFrom 1).map fun p =>
          if oops p.1 then LogMsg.errorExtracting p.1
          else LogMsg.debugExtracted p.1 (extractOne now p.2).Name) := by
  refine ⟨?_, ?_, ?_⟩
  · rw [extract_products, extractLoop_eq]
  · rw [extract_products]
    simp only [extractLoop_eq, List.length_map, ← List.countP_eq_length_filter]
    have h := List.length_eq_countP_add_countP
      (fun p : Nat × Node => oops p.1) ((containersOf doc).enumFrom 1)
    rw [List.enumFrom_length] at h
    rw [h]
    have : (fun p : Nat × Node => !oops p.1) =
        (fun p : Nat × Node => decide ¬ oops p.1 = true) := by
      funext p; cases hp : oops p.1 <;> simp [hp]
    rw [this]
    omega
  · rw [extract_products, extractLoop_eq]

/-- C3 (confirmed): with max retries `R ≥ 1` and a transport that fails at
the transport level on every attempt (connection error, timeout, or a
failure status), `fetch` makes exactly `R` attempts with linear backoff
between them, returns `None` (`Except.ok none`: the exceptions were all
caught), and no exception escapes to the caller. -/
theorem c3_retry_exhaustion (tr : Transport) (delay R : Nat) (hR : 1 ≤ R)
    (hfail : ∀ a, (tr a).fails = true) :
    fetch tr delay R = (.ok none, backoffTrace 1 (R - 1) ++ [Ev.attempt R]) ∧
    countAttempts (fetch tr delay R).2 = R := by
  obtain ⟨m, rfl⟩ : ∃ m, R = m + 1 := ⟨R - 1, by omega⟩
  have h := fetchAux_all_fail tr delay (m + 1) hfail m 0 (by omega)
  have hfe : fetch tr delay (m + 1) =
      (.ok none, backoffTrace 1 m ++ [Ev.attempt (m + 1)]) := by
    rw [fetch, h]; norm_num
  refine ⟨by simpa using hfe, ?_⟩
  rw [hfe]
  simp only [countAttempts_append, countAttempts_backoffTrace]
  simp [countAttempts]

/-- Witness for C3 at a concrete input: three attempts against an
always-failing transport. -/
theorem c3_witness :
    fetch (fun _ => Attempt.connError) 2 3 =
      (.ok none, [Ev.attempt 1, Ev.sleep 2, Ev.attempt 2, Ev.sleep 4, Ev.attempt 3]) ∧
    countAttempts (fetch (fun _ => Attempt.connError) 2 3).2 = 3 := by
  have h := c3_retry_exhaustion (fun _ => Attempt.connError) 2 3 (by norm_num) (fun a => rfl)
  exact ⟨by rw [h.1]; rfl, h.2⟩

/-- C4 (confirmed): when attempts `1..s` fail and attempt `s + 1` succeeds
(`s < R`), `fetch` sleeps `k * 2` seconds after the k-th failed attempt
for every `k` strictly below the maximum, then after the successful
response sleeps the configured inter-request delay exactly once before
returning the HTML, however many failures preceded it. -/
theorem c4_backoff_schedule (tr : Transport) (delay R s : Nat) (html : String)
    (hs : s < R) (hf : ∀ a, a < s → (tr a).fails = true)
    (hsucc : tr s = .response true html) :
    fetch tr delay R =
      (.ok (some html), backoffTrace 1 s ++ [Ev.attempt (s + 1), Ev.sleep delay]) := by
  obtain ⟨m, rfl⟩ : ∃ m, R = m + 1 := ⟨R - 1, by omega⟩
  have h := fetchAux_first_success tr delay (m + 1) s html hsucc hf m 0
    (by omega) (by omega) hs
  rw [fetch, h]
  norm_num

/-- Witness for C4 at a concrete input: two timeouts, then success on the
third of three attempts, with backoff sleeps of 2 and 4 seconds and one
final sleep of the configured delay 7. -/
theorem c4_witness :
    fetch (fun a => if a < 2 then Attempt.timeoutError else Attempt.response true "H") 7 3 =
      (.ok (some "H"),
        [Ev.attempt 1, Ev.sleep 2, Ev.attempt 2, Ev.sleep 4, Ev.attempt 3, Ev.sleep 7]) := by
  have h := c4_backoff_schedule
    (fun a => if a < 2 then Attempt.timeoutError else Attempt.response true "H") 7 3 2 "H"
    (by norm_num) (fun a ha => by interval_cases a <;> rfl) (by rfl)
  rw [h]; rfl

/-- C5 (confirmed): a document with zero matching product containers makes
both variants' extraction return the empty sequence (not a failure), and
saving an empty record list — CSV or JSON, enhanced or minimal, whatever
the I/O oracle — leaves the file system untouched (no file created or
truncated) and only emits the warning message. -/
theorem c5_empty_inputs (oops : Nat → Bool) (now : String) (doc : NodeList)
    (ioErr : Bool) (fn : String) (fs : FS) (h : containersOf doc = []) :
    (extract_products oops now doc).1 = [] ∧
    extract doc = .ok [] ∧
    save_to_csv ioErr [] fn fs = (fs, [.warnNoProducts], none) ∧
    save_to_json ioErr [] fn fs = (fs, [.warnNoProducts], none) ∧
    save ioErr [] fn fs = (fs, [.printNoProducts], none) := by
  refine ⟨?_, ?_, rfl, rfl, rfl⟩
  · rw [extract_products, extractLoop_eq]
    simp [h]
  · rw [extract, h]
    rfl

/-- Witness for C5 at a concrete input: a document holding one element that
matches no selector. -/
theorem c5_witness :
    (extract_products (fun _ => false) "t" (NodeList.ofList [plainDiv])).1 = [] ∧
    extract (NodeList.ofList [plainDiv]) = .ok [] ∧
    save_to_csv false [] "f.csv" [] = ([], [.warnNoProducts], none) ∧
    save_to_json false [] "f.json" [] = ([], [.warnNoProducts], none) ∧
    save false [] "f.csv" [] = ([], [.printNoProducts], none) :=
  c5_empty_inputs (fun _ => false) "t" (NodeList.ofList [plainDiv]) false "f.csv" [] (by rfl)

/-- C6 (counterexample to the claim as stated): in the minimal variant the
failure modes are fatal after all — `fetch` propagates the transport
exception (nothing catches `requests.get` / `raise_for_status`), and
`extract` propagates an `AttributeError` from a container with a missing
rating element. -/
theorem c6_counterexample :
    (fetchMin Attempt.timeoutError).1 =
      .error (PyExn.requestException ReqKind.timeoutErr) ∧
    extract (NodeList.ofList [noRatingContainer]) = .error PyExn.attributeError := by
  exact ⟨rfl, by rfl⟩

/-- C6 (amended): in the enhanced variant no failure mode is fatal — for
every transport behaviour, extraction-exception oracle, I/O oracle, query
and format, `scrape` completes with `Except.ok`: transport failures
degrade to "no HTML", failing containers are skipped, persistence errors
are caught, and no exception propagates out of the pipeline.  In the
minimal variant `fetch` and `extract` do propagate (see the
counterexample); only its `save` catches. -/
theorem c6_no_fatal_error_enhanced (tr : Transport) (delay maxRetries : Nat)
    (oops : Nat → Bool) (ioErr : Bool) (parseHtml : String → NodeList)
    (now : DateTime) (query fmt : String) (fname : Option String) (fs : FS) :
    ∃ fs2, scrape tr delay maxRetries oops ioErr parseHtml now query fmt fname fs =
      .ok fs2 := by
  obtain ⟨r, evs, hf⟩ := fetch_isOk tr delay maxRetries
  have hf1 : (fetch tr delay maxRetries).1 = .ok r := by rw [hf]
  rw [scrape.eq_def, hf1]
  cases r with
  | none => exact ⟨fs, rfl⟩
  | some html =>
      simp only
      by_cases hemp :
          ((extract_products oops (scrapedAtString now) (parseHtml html)).1).isEmpty
      · rw [if_pos hemp]; exact ⟨fs, rfl⟩
      · rw [if_neg hemp]
        cases hfmt : fmt.toLower == "json" <;> exact ⟨_, rfl⟩

lemma rowToProduct_productRow (p : Product) : rowToProduct (productRow p) = some p := rfl

lemma parseRows_map_productRow : ∀ ps : List Product,
    parseRows (ps.map productRow) = some ps := by
  intro ps
  induction ps with
  | nil => rfl
  | cons p rest ih => simp [parseRows, ih, rowToProduct_productRow]

lemma jsonToProduct_productToJson (p : Product) :
    jsonToProduct (productToJson p) = some p := rfl

lemma parseJsonList_map_productToJson : ∀ ps : List Product,
    parseJsonList (ps.map productToJson) = some ps := by
  intro ps
  induction ps with
  | nil => rfl
  | cons p rest ih => simp [parseJsonList, ih, jsonToProduct_productToJson]

/-- C7 (confirmed): persisting a non-empty record list writes exactly the
CSV rows (header plus one row per record, in input order) or the JSON
array the persister constructs, and re-parsing that file content yields
the same records, field for field — for CSV with every field a string
(which all fields already are), for JSON exactly. -/
theorem c7_roundtrip (ps : List Product) (fn : String) (fs : FS) (h : ps ≠ []) :
    (readFile (save_to_csv false ps fn fs).1 fn = some (.csvFile (csvRows ps)) ∧
      parseCsvProducts (csvRows ps) = some ps) ∧
    (readFile (save_to_json false ps fn fs).1 fn = some (.jsonFile (jsonOfProducts ps)) ∧
      parseJsonProducts (jsonOfProducts ps) = some ps) := by
  have hne : ps.isEmpty = false := by
    cases ps with
    | nil => exact absurd rfl h
    | cons a l => rfl
  refine ⟨⟨?_, ?_⟩, ?_, ?_⟩
  · simp [save_to_csv, hne, readFile, writeFile, List.lookup]
  · simp [parseCsvProducts, csvRows, parseRows_map_productRow ps]
  · simp [save_to_json, hne, readFile, writeFile, List.lookup]
  · simp [parseJsonProducts, jsonOfProducts, parseJsonList_map_productToJson ps]

/-- Witness for C7 at a concrete input: one record round-trips through both
persisters. -/
theorem c7_witness :
    (readFile (save_to_csv false [sampleProduct] "out" []).1 "out" =
        some (.csvFile (csvRows [sampleProduct])) ∧
      parseCsvProducts (csvRows [sampleProduct]) = some [sampleProduct]) ∧
    (readFile (save_to_json false [sampleProduct] "out" []).1 "out" =
        some (.jsonFile (jsonOfProducts [sampleProduct])) ∧
      parseJsonProducts (jsonOfProducts [sampleProduct]) = some [sampleProduct]) :=
  c7_roundtrip [sampleProduct] "out" [] (by simp)

/-- C8 (counterexample to the claim as stated): the save functions do not
report their outcome to the caller — the Python functions return `None`
on every path, so the value the caller receives after a caught I/O
failure is identical to the one after a completed write, in both
variants.  (The outcome is only logged.) -/
theorem c8_counterexample :
    (save_to_csv true [sampleProduct] "out.csv" []).2.2 =
      (save_to_csv false [sampleProduct] "out.csv" []).2.2 ∧
    (save_to_csv true [sampleProduct] "out.csv" []).2.2 = none ∧
    (save true [sampleProductMin] "out.csv" []).2.2 =
      (save false [sampleProductMin] "out.csv" []).2.2 := by
  exact ⟨rfl, rfl, rfl⟩

/-- C8 (amended): for a non-empty record list, a caught I/O failure during
the write leaves the file system unchanged and logs an error line, while a
completed write stores the file and logs a success line — so the outcome
is distinguishable in the log and the process continues either way — but
the function's return value to the caller is `None` in every case. -/
theorem c8_save_reporting (ps : List Product) (psm : List ProductMin)
    (fn : String) (fs : FS) (h : ps ≠ []) (hm : psm ≠ []) :
    save_to_csv true ps fn fs = (fs, [.errorSavingCsv], none) ∧
    save_to_csv false ps fn fs =
      (writeFile fs fn (.csvFile (csvRows ps)), [.savedCsv ps.length fn], none) ∧
    save_to_json true ps fn fs = (fs, [.errorSavingJson], none) ∧
    save_to_json false ps fn fs =
      (writeFile fs fn (.jsonFile (jsonOfProducts ps)), [.savedJson ps.length fn], none) ∧
    save true psm fn fs = (fs, [.printErrorSaving], none) ∧
    save false psm fn fs =
      (writeFile fs fn (.csvFile (csvRowsMin psm)), [.printSaved fn], none) := by
  have hne : ps.isEmpty = false := by
    cases ps with
    | nil => exact absurd rfl h
    | cons a l => rfl
  have hnem : psm.isEmpty = false := by
    cases psm with
    | nil => exact absurd rfl hm
    | cons a l => rfl
  simp [save_to_csv, save_to_json, save, hne, hnem]

/-- Witness for C8 at a concrete input. -/
theorem c8_witness :
    save_to_csv true [sampleProduct] "o" [] = ([], [.errorSavingCsv], none) ∧
    save_to_csv false [sampleProduct] "o" [] =
      (writeFile [] "o" (.csvFile (csvRows [sampleProduct])),
        [.savedCsv 1 "o"], none) ∧
    save_to_json true [sampleProduct] "o" [] = ([], [.errorSavingJson], none) ∧
    save_to_json false [sampleProduct] "o" [] =
      (writeFile [] "o" (.jsonFile (jsonOfProducts [sampleProduct])),
        [.savedJson 1 "o"], none) ∧
    save true [sampleProductMin] "o" [] = ([], [.printErrorSaving], none) ∧
    save false [sampleProductMin] "o" [] =
      (writeFile [] "o" (.csvFile (csvRowsMin [sampleProductMin])),
        [.printSaved "o"], none) :=
  c8_save_reporting [sampleProduct] [sampleProductMin] "o" [] (by simp) (by simp)

/-- C9 (counterexample to the claim as stated): two distinct run instants
within the same wall-clock second (they differ in the microsecond
component, which the `'%Y%m%d_%H%M%S'` format drops) synthesize the same
filename, so repeated auto-named runs can collide and overwrite each
other. -/
theorem c9_counterexample :
    dtA ≠ dtB ∧ autoFilename "laptops" dtA = autoFilename "laptops" dtB := by
  exact ⟨by decide, rfl⟩

/-- C9 (amended): the synthesized filename is the fixed prefix plus the
query with spaces replaced by underscores plus the timestamp, and two
auto-named runs of the same query whose timestamps differ at second
granularity always get distinct filenames; only runs within the same
second collide. -/
theorem c9_filename_injective (q : String) (t1 t2 : DateTime)
    (h1 : t1.valid) (h2 : t2.valid) (hne : t1.secondsTuple ≠ t2.secondsTuple) :
    autoFilename q t1 ≠ autoFilename q t2 := by
  intro heq
  apply hne
  apply fmtTimestamp_inj h1 h2
  have hdata := congrArg String.data heq
  simp only [autoFilename, String.data_append, List.append_assoc] at hdata
  exact List.append_cancel_left (List.append_cancel_left (List.append_cancel_left hdata))

/-- Witness for C9 at concrete inputs: runs one second apart never share a
filename. -/
theorem c9_witness : autoFilename "laptops" dtA ≠ autoFilename "laptops" dtC :=
  c9_filename_injective "laptops" dtA dtC (by decide) (by decide) (by decide)

/-- C10 (confirmed): with `max_retries = 0` the attempt range is empty, so
`fetch` immediately returns `None` with no HTTP attempt, no sleep and no
attempt log line — the same no-content result a caller sees after retry
exhaustion. -/
theorem c10_zero_retries (tr : Transport) (delay : Nat) :
    fetch tr delay 0 = (.ok none, []) := rfl
